import Mathlib

/-
Verification of the expectation-matcher contract behind
`gapid_tests/command_buffer_tests/vkTrimCommandPool_test/vkTrimCommandPool.py`.

The test script asserts properties of the next recorded `vkTrimCommandPool`
call via `gapit_test_framework` (`next_call_of`, `require`, `require_equal`,
`require_not_equal`).  The framework itself is not among the supplied source
files, so its operations are modelled from the specification's words; the
test body `EmptyBitCommandPool.expect` is embedded line by line from the
Python source.
-/

namespace GapitModel

/-- A recorded argument value: numeric, string, or handle-identity, the three
semantic value kinds the matcher compares. -/
inductive Value where
  | num (n : Int)
  | str (s : String)
  | handle (h : Nat)
deriving DecidableEq, Repr

/-- The error kinds of the matcher: `NotFoundError` (no matching call left in
the sequence), `MissingFieldError` (matched call lacks a field),
`AssertionError` (explicit equality or presence violation, carrying the
expected and actual values when a comparison failed), and `NameError`
(a free Python name that no environment injected). -/
inductive TestError where
  | NotFoundError
  | MissingFieldError (field : String)
  | AssertionError (expected actual : Option Value)
  | NameError (name : String)
deriving DecidableEq, Repr

/-- One intercepted API invocation: a name and its recorded arguments in
declaration order.  Its sequence index is its position in the captured
list. -/
structure RecordedCall where
  name : String
  arguments : List (String × Value)
deriving DecidableEq, Repr

def mkCall (n : String) (args : List (String × Value)) : RecordedCall :=
  ⟨n, args⟩

/-- Ordered lookup of an argument by field name. -/
def getArg : List (String × Value) → String → Option Value
  | [], _ => none
  | (k, v) :: rest, f => if k = f then some v else getArg rest f

/-- Dynamic field access on a recorded call; a missing field surfaces as
`MissingFieldError` naming the field. -/
def getField (c : RecordedCall) (f : String) : Except TestError Value :=
  match getArg c.arguments f with
  | some v => Except.ok v
  | none => Except.error (TestError.MissingFieldError f)

/-- Modelled from the spec: `require(value)` of `gapit_test_framework` (not in
the supplied sources) fails with `AssertionError` if the value is absent/null,
and otherwise returns the value unchanged. -/
def require {α : Type} (v : Option α) : Except TestError α :=
  match v with
  | some x => Except.ok x
  | none => Except.error (TestError.AssertionError none none)

/-- Modelled from the spec: `require_equal(expected, actual)` of
`gapit_test_framework` (not in the supplied sources) fails with
`AssertionError` carrying both values if `expected != actual` under value
equality, and otherwise passes. -/
def require_equal (expected actual : Value) : Except TestError Unit :=
  if expected = actual then Except.ok ()
  else Except.error (TestError.AssertionError (some expected) (some actual))

/-- Modelled from the spec: `require_not_equal(expected, actual)` of
`gapit_test_framework` (not in the supplied sources), the dual of
`require_equal`: fails if the values ARE equal. -/
def require_not_equal (expected actual : Value) : Except TestError Unit :=
  if expected = actual then
    Except.error (TestError.AssertionError (some expected) (some actual))
  else Except.ok ()

/-- The matcher state: the captured call sequence and the cursor, the
sequence index of the last consumed call (`-1` before anything was
consumed). -/
structure Matcher where
  calls : List RecordedCall
  cursor : Int
deriving DecidableEq, Repr

/-- A fresh matcher: cursor strictly before the first call. -/
def Matcher.init (calls : List RecordedCall) : Matcher :=
  ⟨calls, -1⟩

/-- Linear forward scan: the first (index, call) at sequence index strictly
greater than `cur` whose name is `N`.  `i` is the index of the head of the
remaining list. -/
def scanFor (N : String) (cur : Int) : List RecordedCall → Nat → Option (Nat × RecordedCall)
  | [], _ => none
  | c :: rest, i =>
      if cur < (i : Int) ∧ c.name = N then some (i, c)
      else scanFor N cur rest (i + 1)

/-- Modelled from the spec: `next_call_of(name)` of `gapit_test_framework`
(not in the supplied sources) scans the call sequence starting just after the
cursor, returns the first call whose name equals the identifier and advances
the cursor to that call's position; fails with `NotFoundError` if the
sequence is exhausted without a match. -/
def next_call_of (m : Matcher) (N : String) : Except TestError (RecordedCall × Matcher) :=
  match scanFor N m.cursor m.calls 0 with
  | some (i, c) => Except.ok (c, ⟨m.calls, (i : Int)⟩)
  | none => Except.error TestError.NotFoundError

/-- The test scenario's device handle `D`. -/
def scenarioD : Value := Value.handle 7

/-- The test scenario's command-pool handle `P`. -/
def scenarioP : Value := Value.handle 9

/-- The scenario's `vkTrimCommandPool` call with the given flags value. -/
def trimCall (flags : Value) : RecordedCall :=
  mkCall "vkTrimCommandPool"
    [("device", scenarioD), ("commandPool", scenarioP), ("flags", flags)]

/-- The scenario sequence: `vkCreateCommandPool` at index 0 and
`vkTrimCommandPool` at index 1. -/
def scenarioSeq (flags : Value) : List RecordedCall :=
  [mkCall "vkCreateCommandPool" [], trimCall flags]

/-- A capture with no `vkTrimCommandPool` call at all. -/
def noTrimSeq : List RecordedCall :=
  [mkCall "vkCreateCommandPool" [], mkCall "vkDestroyCommandPool" []]

/-- A capture with two `vkTrimCommandPool` calls, at indices 0 and 2. -/
def monoSeq : List RecordedCall :=
  [mkCall "vkTrimCommandPool" [("flags", Value.num 0)],
   mkCall "vkCreateCommandPool" [],
   mkCall "vkTrimCommandPool" [("flags", Value.num 1)]]

/-- The handle-bearing ambient `command_pool` object (`command_pool.handle`
is read by the test). -/
structure CommandPoolObj where
  handle : Value
deriving DecidableEq, Repr

/-- The ambient per-test environment: the module-level names `device` and
`command_pool` that the harness may or may not inject (they are neither
defined in the test module nor imported by it). -/
structure Env where
  device : Option Value
  command_pool : Option CommandPoolObj
deriving DecidableEq, Repr

/-- The test instance (`self` of `GapitTest`): its architecture context and
its matcher over the captured trace. -/
structure GapitTest where
  architecture : Value
  matcher : Matcher
deriving DecidableEq, Repr

/-- Python global-name resolution: a name nobody injected raises
`NameError`. -/
def resolveName {α : Type} (n : String) (v : Option α) : Except TestError α :=
  match v with
  | some x => Except.ok x
  | none => Except.error (TestError.NameError n)

namespace EmptyBitCommandPool

/-- Embedding of `EmptyBitCommandPool.expect` (vkTrimCommandPool.py, lines
22-31), statement by statement in Python evaluation order:
`architecture = self.architecture`;
`trim_pool = require(self.next_call_of("vkTrimCommandPool"))`;
`require_equal(device, trim_pool.int_device)`;
`require_equal(command_pool.handle, trim_pool.int_commandPool)`;
`require_equal(0, trim_pool.flags)`.
Arguments of a call are evaluated left to right before the call, so each free
name is resolved before the corresponding field access and comparison. -/
def expect (env : Env) (self : GapitTest) : Except TestError Unit := do
  let _architecture := self.architecture
  let found ← next_call_of self.matcher "vkTrimCommandPool"
  let trim_pool ← require (some found.fst)
  let device ← resolveName "device" env.device
  let actual_device ← getField trim_pool "int_device"
  require_equal device actual_device
  let command_pool ← resolveName "command_pool" env.command_pool
  let actual_pool ← getField trim_pool "int_commandPool"
  require_equal command_pool.handle actual_pool
  let actual_flags ← getField trim_pool "flags"
  require_equal (Value.num 0) actual_flags

end EmptyBitCommandPool

/-- A successful `scanFor` yields the first matching index: the index is at
least the starting offset, strictly after the cursor, holds a call of the
requested name, and every earlier candidate position fails the match. -/
theorem scanFor_eq_some (N : String) (cur : Int) (l : List RecordedCall) :
    ∀ (i k : Nat) (c : RecordedCall), scanFor N cur l i = some (k, c) →
      i ≤ k ∧ cur < (k : Int) ∧ l[k - i]? = some c ∧ c.name = N ∧
        ∀ j : Nat, i ≤ j → cur < (j : Int) → j < k →
          ∀ cj : RecordedCall, l[j - i]? = some cj → cj.name ≠ N := by
  induction l with
  | nil =>
    intro i k c h
    simp [scanFor] at h
  | cons hd tl ih =>
    intro i k c h
    simp only [scanFor] at h
    by_cases hc : cur < (i : Int) ∧ hd.name = N
    · rw [if_pos hc] at h
      injection h with hpair
      rw [Prod.mk.injEq] at hpair
      obtain ⟨hk, hcd⟩ := hpair
      subst hk
      subst hcd
      refine ⟨Nat.le_refl _, hc.1, ?_, hc.2, ?_⟩
      · simp [Nat.sub_self]
      · intro j h1 h2 h3 cj hget
        omega
    · rw [if_neg hc] at h
      obtain ⟨h1, h2, h3, h4, h5⟩ := ih (i + 1) k c h
      refine ⟨by omega, h2, ?_, h4, ?_⟩
      · have hki : k - i = (k - (i + 1)) + 1 := by omega
        rw [hki, List.getElem?_cons_succ]
        exact h3
      · intro j hij hcurj hjk cj hget
        by_cases hji : j = i
        · subst hji
          rw [Nat.sub_self] at hget
          simp only [List.getElem?_cons_zero, Option.some.injEq] at hget
          subst hget
          intro hname
          exact hc ⟨hcurj, hname⟩
        · have hij1 : i + 1 ≤ j := by omega
          have hji2 : j - i = (j - (i + 1)) + 1 := by omega
          rw [hji2, List.getElem?_cons_succ] at hget
          exact h5 j hij1 hcurj hjk cj hget

/-- A failed `scanFor` means no position at or after the starting offset and
strictly after the cursor holds a call of the requested name. -/
theorem scanFor_eq_none (N : String) (cur : Int) (l : List RecordedCall) :
    ∀ i : Nat, scanFor N cur l i = none →
      ∀ j : Nat, i ≤ j → cur < (j : Int) →
        ∀ cj : RecordedCall, l[j - i]? = some cj → cj.name ≠ N := by
  induction l with
  | nil =>
    intro i h j hij hcur cj hget
    simp at hget
  | cons hd tl ih =>
    intro i h j hij hcur cj hget
    simp only [scanFor] at h
    by_cases hc : cur < (i : Int) ∧ hd.name = N
    · rw [if_pos hc] at h
      exact absurd h (by simp)
    · rw [if_neg hc] at h
      by_cases hji : j = i
      · subst hji
        rw [Nat.sub_self] at hget
        simp only [List.getElem?_cons_zero, Option.some.injEq] at hget
        subst hget
        intro hname
        exact hc ⟨hcur, hname⟩
      · have hij1 : i + 1 ≤ j := by omega
        have hji2 : j - i = (j - (i + 1)) + 1 := by omega
        rw [hji2, List.getElem?_cons_succ] at hget
        exact ih (i + 1) h j hij1 hcur cj hget

/-- Inversion of a successful `next_call_of`: the returned call sits at the
smallest sequence index strictly after the cursor whose name matches, and
the new matcher records that index as its cursor. -/
theorem next_call_of_ok_inv (m : Matcher) (N : String) (c : RecordedCall) (m₂ : Matcher) :
    next_call_of m N = Except.ok (c, m₂) →
      ∃ k : Nat, m₂ = ⟨m.calls, (k : Int)⟩ ∧ m.cursor < (k : Int) ∧
        m.calls[k]? = some c ∧ c.name = N ∧
        ∀ j : Nat, m.cursor < (j : Int) → j < k →
          ∀ cj : RecordedCall, m.calls[j]? = some cj → cj.name ≠ N := by
  intro h
  unfold next_call_of at h
  split at h
  · rename_i k c0 heq
    obtain ⟨h1, h2, h3, h4, h5⟩ := scanFor_eq_some N m.cursor m.calls 0 k c0 heq
    injection h with hpair
    rw [Prod.mk.injEq] at hpair
    obtain ⟨hc, hm⟩ := hpair
    subst hc
    refine ⟨k, hm.symm, h2, by simpa using h3, h4, ?_⟩
    intro j hcur hjk cj hget
    exact h5 j (Nat.zero_le j) hcur hjk cj (by simpa using hget)
  · simp at h

/-- `next_call_of` fails with `NotFoundError` exactly when no call strictly
after the cursor bears the requested name. -/
theorem next_call_of_error_iff (m : Matcher) (N : String) :
    next_call_of m N = Except.error TestError.NotFoundError ↔
      ∀ (j : Nat) (cj : RecordedCall), m.cursor < (j : Int) →
        m.calls[j]? = some cj → cj.name ≠ N := by
  constructor
  · intro h j cj hcur hget
    unfold next_call_of at h
    split at h
    · simp at h
    · rename_i heq
      exact scanFor_eq_none N m.cursor m.calls 0 heq j (Nat.zero_le j) hcur cj (by simpa using hget)
  · intro hall
    unfold next_call_of
    split
    · rename_i k c0 heq
      obtain ⟨h1, h2, h3, h4, h5⟩ := scanFor_eq_some N m.cursor m.calls 0 k c0 heq
      exact absurd h4 (hall k c0 h2 (by simpa using h3))
    · rfl

/-- A test state whose capture is a single `vkTrimCommandPool` call with the
given recorded `int_device`, `int_commandPool` and `flags` values. -/
def mkTrimState (arch dv cp fl : Value) : GapitTest :=
  ⟨arch, Matcher.init
     [mkCall "vkTrimCommandPool"
        [("int_device", dv), ("int_commandPool", cp), ("flags", fl)]]⟩

/-- An environment injecting both ambient names: `device` bound to `d` and
`command_pool` bound to an object whose handle is `ph`. -/
def mkEnvFull (d ph : Value) : Env := ⟨some d, some ⟨ph⟩⟩

/-- Binding a failed `Except` computation propagates the error. -/
theorem except_error_bind {α β : Type} (e : TestError) (f : α → Except TestError β) :
    ((Except.error e : Except TestError α) >>= f) = Except.error e := rfl

/-- Binding a successful `Except` computation applies the continuation. -/
theorem except_ok_bind {α β : Type} (a : α) (f : α → Except TestError β) :
    ((Except.ok a : Except TestError α) >>= f) = f a := rfl

/-- Over a single trim call and a full environment, the whole `expect` body
reduces to its three comparisons run in order, each gating the next. -/
theorem expect_eval (arch d ph dv cp fl : Value) :
    EmptyBitCommandPool.expect (mkEnvFull d ph) (mkTrimState arch dv cp fl) =
      (if d = dv then
        (if ph = cp then
          (if Value.num 0 = fl then Except.ok ()
           else Except.error (TestError.AssertionError (some (Value.num 0)) (some fl)))
         else Except.error (TestError.AssertionError (some ph) (some cp)))
       else Except.error (TestError.AssertionError (some d) (some dv))) := by
  have hchain : EmptyBitCommandPool.expect (mkEnvFull d ph) (mkTrimState arch dv cp fl) =
      (require_equal d dv >>= fun _ =>
       require_equal ph cp >>= fun _ =>
       require_equal (Value.num 0) fl) := rfl
  rw [hchain]
  by_cases h1 : d = dv
  · by_cases h2 : ph = cp
    · by_cases h3 : Value.num 0 = fl
      · simp [require_equal, h1, h2, h3, except_ok_bind]
      · simp [require_equal, h1, h2, h3, except_ok_bind]
    · simp [require_equal, h1, h2, except_ok_bind, except_error_bind]
  · simp [require_equal, h1, except_error_bind]

/-- C1: for every call sequence and name `N`, `next_call_of N` returns the
call with the smallest sequence index strictly greater than the cursor whose
name equals `N` and advances the cursor to that index; if no such call
remains it fails with `NotFoundError` — in particular it does so on a
sequence containing no call named `vkTrimCommandPool`. -/
theorem next_call_of_spec :
    (∀ (m : Matcher) (N : String) (c : RecordedCall) (m₂ : Matcher),
        next_call_of m N = Except.ok (c, m₂) →
          ∃ k : Nat, m.cursor < (k : Int) ∧ m.calls[k]? = some c ∧ c.name = N ∧
            m₂.calls = m.calls ∧ m₂.cursor = (k : Int) ∧
            ∀ j : Nat, m.cursor < (j : Int) → j < k →
              ∀ cj : RecordedCall, m.calls[j]? = some cj → cj.name ≠ N)
    ∧ (∀ (m : Matcher) (N : String),
        next_call_of m N = Except.error TestError.NotFoundError ↔
          ∀ (j : Nat) (cj : RecordedCall), m.cursor < (j : Int) →
            m.calls[j]? = some cj → cj.name ≠ N)
    ∧ next_call_of (Matcher.init noTrimSeq) "vkTrimCommandPool" =
        Except.error TestError.NotFoundError := by
  refine ⟨?_, fun m N => next_call_of_error_iff m N, rfl⟩
  intro m N c m₂ h
  obtain ⟨k, hm, h2, h3, h4, h5⟩ := next_call_of_ok_inv m N c m₂ h
  exact ⟨k, h2, h3, h4, by rw [hm], by rw [hm], h5⟩

/-- C2: on the sequence [`vkCreateCommandPool` (idx 0), `vkTrimCommandPool`
(idx 1, device=D, commandPool=P, flags=0)], `next_call_of` returns the
index-1 call (cursor advanced to 1), `require_equal(D, call.device)` passes
and `require_equal(0, call.flags)` passes; with flags=1 instead, the flags
check fails with an `AssertionError` reporting expected 0 and actual 1. -/
theorem trim_scenario_spec :
    next_call_of (Matcher.init (scenarioSeq (Value.num 0))) "vkTrimCommandPool" =
        Except.ok (trimCall (Value.num 0), ⟨scenarioSeq (Value.num 0), 1⟩)
    ∧ getField (trimCall (Value.num 0)) "device" = Except.ok scenarioD
    ∧ require_equal scenarioD scenarioD = Except.ok ()
    ∧ getField (trimCall (Value.num 0)) "flags" = Except.ok (Value.num 0)
    ∧ require_equal (Value.num 0) (Value.num 0) = Except.ok ()
    ∧ next_call_of (Matcher.init (scenarioSeq (Value.num 1))) "vkTrimCommandPool" =
        Except.ok (trimCall (Value.num 1), ⟨scenarioSeq (Value.num 1), 1⟩)
    ∧ getField (trimCall (Value.num 1)) "flags" = Except.ok (Value.num 1)
    ∧ require_equal (Value.num 0) (Value.num 1) =
        Except.error (TestError.AssertionError (some (Value.num 0)) (some (Value.num 1))) :=
  ⟨rfl, rfl, rfl, rfl, rfl, rfl, rfl, rfl⟩

/-- C3: cursor monotonicity — two consecutive successful `next_call_of`
lookups with the same name return calls at strictly increasing sequence
indices, each strictly after the cursor they started from, so a consumed
call is never returned again. -/
theorem cursor_monotonic (m : Matcher) (N : String) (c₁ : RecordedCall)
    (m₁ : Matcher) (c₂ : RecordedCall) (m₂ : Matcher)
    (h₁ : next_call_of m N = Except.ok (c₁, m₁))
    (h₂ : next_call_of m₁ N = Except.ok (c₂, m₂)) :
    ∃ (k₁ k₂ : Nat), k₁ < k₂ ∧ m₁.cursor = (k₁ : Int) ∧ m₂.cursor = (k₂ : Int) ∧
      m.calls[k₁]? = some c₁ ∧ m.calls[k₂]? = some c₂ ∧ m.cursor < (k₁ : Int) := by
  obtain ⟨k₁, hm₁, ha, hb, _, _⟩ := next_call_of_ok_inv m N c₁ m₁ h₁
  obtain ⟨k₂, hm₂, hc, hd, _, _⟩ := next_call_of_ok_inv m₁ N c₂ m₂ h₂
  subst hm₁
  subst hm₂
  refine ⟨k₁, k₂, ?_, rfl, rfl, hb, hd, ha⟩
  have hc₂ : (k₁ : Int) < (k₂ : Int) := hc
  exact_mod_cast hc₂

/-- C3 witness: on a concrete capture whose `vkTrimCommandPool` calls sit at
indices 0 and 2, the two consecutive lookups consume index 0 and then
index 2. -/
theorem cursor_monotonic_witness :
    ∃ (k₁ k₂ : Nat), k₁ < k₂ ∧
      ((⟨monoSeq, (0 : Int)⟩ : Matcher).cursor = (k₁ : Int)) ∧
      ((⟨monoSeq, (2 : Int)⟩ : Matcher).cursor = (k₂ : Int)) ∧
      (Matcher.init monoSeq).calls[k₁]? =
        some (mkCall "vkTrimCommandPool" [("flags", Value.num 0)]) ∧
      (Matcher.init monoSeq).calls[k₂]? =
        some (mkCall "vkTrimCommandPool" [("flags", Value.num 1)]) ∧
      (Matcher.init monoSeq).cursor < (k₁ : Int) :=
  cursor_monotonic (Matcher.init monoSeq) "vkTrimCommandPool"
    (mkCall "vkTrimCommandPool" [("flags", Value.num 0)]) ⟨monoSeq, (0 : Int)⟩
    (mkCall "vkTrimCommandPool" [("flags", Value.num 1)]) ⟨monoSeq, (2 : Int)⟩
    rfl rfl

/-- C4: `require_equal(expected, actual)` fails, with an `AssertionError`
carrying both values, exactly when the values differ under value equality;
when they are equal it does not fail. -/
theorem require_equal_spec (expected actual : Value) :
    (expected ≠ actual →
        require_equal expected actual =
          Except.error (TestError.AssertionError (some expected) (some actual)))
    ∧ (expected = actual → require_equal expected actual = Except.ok ())
    ∧ ((∃ e : TestError, require_equal expected actual = Except.error e) ↔
        expected ≠ actual) := by
  by_cases h : expected = actual
  · subst h
    simp [require_equal]
  · simp [require_equal, h]

/-- C5: `require_equal` is symmetric in outcome — for any two values it
fails on (a, b) exactly when it fails on (b, a), and passes on (a, b)
exactly when it passes on (b, a). -/
theorem require_equal_symm (a b : Value) :
    ((∃ e : TestError, require_equal a b = Except.error e) ↔
        (∃ e : TestError, require_equal b a = Except.error e))
    ∧ ((require_equal a b = Except.ok ()) ↔ (require_equal b a = Except.ok ())) := by
  by_cases h : a = b
  · subst h
    simp
  · have h2 : b ≠ a := fun hba => h hba.symm
    simp [require_equal, h, h2]

/-- C6: `require(v)` fails with an `AssertionError` when the value is
absent, and when the value is present it does not fail and returns the value
itself, usable as the found call. -/
theorem require_spec :
    require (none : Option Value) = Except.error (TestError.AssertionError none none)
    ∧ ∀ x : Value, require (some x) = Except.ok x :=
  ⟨rfl, fun _ => rfl⟩

/-- C7: `require_not_equal` is the dual of `require_equal`: it fails with an
`AssertionError` exactly when the two values ARE equal, and does not fail
when they differ. -/
theorem require_not_equal_spec (expected actual : Value) :
    (expected = actual →
        require_not_equal expected actual =
          Except.error (TestError.AssertionError (some expected) (some actual)))
    ∧ (expected ≠ actual → require_not_equal expected actual = Except.ok ())
    ∧ ((∃ e : TestError, require_not_equal expected actual = Except.error e) ↔
        expected = actual) := by
  by_cases h : expected = actual
  · subst h
    simp [require_not_equal]
  · simp [require_not_equal, h]

/-- C8: fail-fast — the test body either completes all three comparisons in
order (passing) or stops at the first violated one: when the device check
fails, the outcome is that failure and is independent of the recorded
commandPool and flags values; when the device check passes and the
commandPool check fails, the outcome is that failure and is independent of
the recorded flags value. -/
theorem expect_fail_fast (arch d ph dv cp fl cp₂ fl₂ fl₃ : Value) :
    (d ≠ dv →
      EmptyBitCommandPool.expect (mkEnvFull d ph) (mkTrimState arch dv cp fl) =
          Except.error (TestError.AssertionError (some d) (some dv))
        ∧ EmptyBitCommandPool.expect (mkEnvFull d ph) (mkTrimState arch dv cp fl) =
            EmptyBitCommandPool.expect (mkEnvFull d ph) (mkTrimState arch dv cp₂ fl₂))
    ∧ (ph ≠ cp →
      EmptyBitCommandPool.expect (mkEnvFull d ph) (mkTrimState arch d cp fl) =
          Except.error (TestError.AssertionError (some ph) (some cp))
        ∧ EmptyBitCommandPool.expect (mkEnvFull d ph) (mkTrimState arch d cp fl) =
            EmptyBitCommandPool.expect (mkEnvFull d ph) (mkTrimState arch d cp fl₃))
    ∧ EmptyBitCommandPool.expect (mkEnvFull d ph) (mkTrimState arch d ph (Value.num 0)) =
        Except.ok () := by
  refine ⟨?_, ?_, ?_⟩
  · intro h
    constructor
    · rw [expect_eval, if_neg h]
    · rw [expect_eval, expect_eval, if_neg h, if_neg h]
  · intro h
    constructor
    · rw [expect_eval, if_pos rfl, if_neg h]
    · rw [expect_eval, expect_eval, if_pos rfl, if_pos rfl, if_neg h, if_neg h]
  · rw [expect_eval, if_pos rfl, if_pos rfl, if_pos rfl]

/-- C9: the outcome of `EmptyBitCommandPool.expect` does not depend on the
architecture context — two runs over the same environment and the same
matcher state that differ only in `self.architecture` produce identical
results (the binding on line 26 is never used afterwards). -/
theorem expect_architecture_independent (env : Env) (calls : List RecordedCall)
    (cur : Int) (a₁ a₂ : Value) :
    EmptyBitCommandPool.expect env ⟨a₁, ⟨calls, cur⟩⟩ =
      EmptyBitCommandPool.expect env ⟨a₂, ⟨calls, cur⟩⟩ := rfl

/-- C10: `device` is a free name of the test module; whenever the
`vkTrimCommandPool` lookup succeeds but the environment injects neither
ambient name, `expect` fails with `NameError` on `device` at the first
`require_equal`, before any field-value comparison is performed. -/
theorem expect_free_name (cp : Option CommandPoolObj) (arch : Value)
    (m : Matcher) (c : RecordedCall) (m₂ : Matcher)
    (h : next_call_of m "vkTrimCommandPool" = Except.ok (c, m₂)) :
    EmptyBitCommandPool.expect ⟨none, cp⟩ ⟨arch, m⟩ =
      Except.error (TestError.NameError "device") := by
  have hrw : EmptyBitCommandPool.expect ⟨none, cp⟩ ⟨arch, m⟩ =
      (next_call_of m "vkTrimCommandPool" >>= fun found =>
        require (some found.fst) >>= fun trim_pool =>
        resolveName "device" (none : Option Value) >>= fun device =>
        getField trim_pool "int_device" >>= fun actual_device =>
        require_equal device actual_device >>= fun _ =>
        resolveName "command_pool" cp >>= fun command_pool =>
        getField trim_pool "int_commandPool" >>= fun actual_pool =>
        require_equal command_pool.handle actual_pool >>= fun _ =>
        getField trim_pool "flags" >>= fun actual_flags =>
        require_equal (Value.num 0) actual_flags) := rfl
  rw [hrw, h]
  rfl

/-- C10 witness: with one `vkTrimCommandPool` call in the capture and an
empty environment, `expect` fails with `NameError` on `device`. -/
theorem expect_free_name_witness :
    EmptyBitCommandPool.expect ⟨none, none⟩
        ⟨Value.str "arm64", Matcher.init [mkCall "vkTrimCommandPool" []]⟩ =
      Except.error (TestError.NameError "device") :=
  expect_free_name none (Value.str "arm64")
    (Matcher.init [mkCall "vkTrimCommandPool" []])
    (mkCall "vkTrimCommandPool" [])
    ⟨[mkCall "vkTrimCommandPool" []], (0 : Int)⟩ rfl

end GapitModel
